import Mathlib

/-!
Verification of the PyPI release-automation plugin (package `main`,
file `plugin.go`).

The Go source is shallowly embedded below.  Conventions of the embedding:

* Strings are Lean `String`s; where the Go code walks a string byte by
  byte we work on `String.toList` (all relevant characters are ASCII,
  where Go bytes and Lean characters coincide).  `s.toList` is `s.data`.
* A Go `error` result becomes `Except String Unit` (`.error msg` for a
  non-nil error carrying the formatted message, `.ok ()` for nil).
* The two external effects used by `validateRepositoryURL` — URL parsing
  (`net/url.Parse` + `.Hostname()`) and DNS resolution (`net.LookupIP`)
  — are standard-library/network primitives outside this repository.
  They are passed in as explicit function parameters (`parse`,
  `lookupIP`), so every theorem quantifies over their behaviour.
* The subprocess executor (`CommandExecutor.Run`) is likewise passed in
  as a function; in addition, the embedding of `uploadPackage` returns
  the list of executor invocations it performed, so that "the subprocess
  is never invoked" is the statement `calls = []`.
* `net.IP` values are embedded as `IP`: constructor `v4` for any address
  that has a 4-byte form (including IPv4-mapped IPv6 addresses, which Go
  converts with `To4` inside `IPNet.Contains` and the `Is*` predicates),
  constructor `v6` for 16-byte addresses without a 4-byte form.
  Byte-mask comparisons `x & m == base & m` from `net.IPNet.Contains`
  are written with integer division by powers of two, which agrees with
  the mask comparison for byte values below 256.
* The plugin targets POSIX path semantics (`filepath.Separator = '/'`,
  `filepath.IsAbs s = strings.HasPrefix(s, "/")`); `filepath.Clean` is
  embedded by its segment semantics (see `cleanList` below).
-/

namespace PyPIPlugin

/-! ## IP addresses and `isPrivateIP` (plugin.go lines 247-283) -/

/-- An address with a 4-byte form; fields are the four bytes. -/
structure IPv4 where
  a : Nat
  b : Nat
  c : Nat
  d : Nat
deriving DecidableEq, Repr

/-- A 16-byte IPv6 address without a 4-byte form; fields are the bytes. -/
structure IPv6 where
  b0 : Nat
  b1 : Nat
  b2 : Nat
  b3 : Nat
  b4 : Nat
  b5 : Nat
  b6 : Nat
  b7 : Nat
  b8 : Nat
  b9 : Nat
  b10 : Nat
  b11 : Nat
  b12 : Nat
  b13 : Nat
  b14 : Nat
  b15 : Nat
deriving DecidableEq, Repr

/-- Embedding of `net.IP` (see the header comment). -/
inductive IP where
  | v4 : IPv4 → IP
  | v6 : IPv6 → IP
deriving DecidableEq, Repr

/-- The IPv6 loopback address `::1` (`net.IPv6loopback`). -/
def IPv6loopback : IPv6 := ⟨0, 0, 0, 0, 0, 0, 0, 0, 0, 0, 0, 0, 0, 0, 0, 1⟩

/-- The AWS IMDSv2 IPv6 metadata address `fd00:ec2::254` from the
source's `cloudMetadata` list. -/
def awsIMDSv6 : IPv6 := ⟨0xfd, 0x00, 0x0e, 0xc2, 0, 0, 0, 0, 0, 0, 0, 0, 0, 0, 0x02, 0x54⟩

/-- Membership in the source's `privateRanges` CIDR list, with
`net.IPNet.Contains` unfolded at each of the six IPv4 CIDRs.  A 4-byte
CIDR block never contains an address without a 4-byte form.
`v.b / 16 == 1` is the mask comparison `v.b & 0xf0 == 0x10`. -/
def inPrivateRanges : IP → Bool
  | .v4 v =>
    (v.a == 10) ||                      -- "10.0.0.0/8"
    (v.a == 172 && v.b / 16 == 1) ||    -- "172.16.0.0/12"
    (v.a == 192 && v.b == 168) ||       -- "192.168.0.0/16"
    (v.a == 127) ||                     -- "127.0.0.0/8"
    (v.a == 169 && v.b == 254) ||       -- "169.254.0.0/16"
    (v.a == 0)                          -- "0.0.0.0/8"
  | .v6 _ => false

/-- Membership in the source's `cloudMetadata` CIDR list; both entries
are /32 resp. /128, so `Contains` is plain equality. -/
def inCloudMetadata : IP → Bool
  | .v4 v => v.a == 169 && v.b == 254 && v.c == 169 && v.d == 254  -- "169.254.169.254/32"
  | .v6 w => w == awsIMDSv6                                        -- "fd00:ec2::254/128"

/-- Embedding of `net.IP.IsLoopback`. -/
def IP.IsLoopback : IP → Bool
  | .v4 v => v.a == 127
  | .v6 w => w == IPv6loopback

/-- Embedding of `net.IP.IsLinkLocalUnicast`; for the 16-byte case
`w.b1 / 64 == 2` is the mask comparison `w.b1 & 0xc0 == 0x80`
(the `fe80::/10` test). -/
def IP.IsLinkLocalUnicast : IP → Bool
  | .v4 v => v.a == 169 && v.b == 254
  | .v6 w => w.b0 == 0xfe && w.b1 / 64 == 2

/-- Embedding of `net.IP.IsLinkLocalMulticast`; `w.b1 % 16 == 2` is the
mask comparison `w.b1 & 0x0f == 0x02`. -/
def IP.IsLinkLocalMulticast : IP → Bool
  | .v4 v => v.a == 224 && v.b == 0 && v.c == 0
  | .v6 w => w.b0 == 0xff && w.b1 % 16 == 2

/-- Embedding of `net.IP.IsPrivate`; `v.b / 16 == 1` is `v.b & 0xf0 == 16`
and `w.b0 / 2 == 126` is `w.b0 & 0xfe == 0xfc` (the `fc00::/7` test). -/
def IP.IsPrivate : IP → Bool
  | .v4 v => v.a == 10 || (v.a == 172 && v.b / 16 == 1) || (v.a == 192 && v.b == 168)
  | .v6 w => w.b0 / 2 == 126

/-- Embedding of `isPrivateIP` (plugin.go lines 248-283): the loop over
`allRanges = privateRanges ++ cloudMetadata` followed by the generic
predicate catch-all. -/
def isPrivateIP (ip : IP) : Bool :=
  inPrivateRanges ip || inCloudMetadata ip ||
  ip.IsLoopback || ip.IsLinkLocalUnicast || ip.IsLinkLocalMulticast || ip.IsPrivate

/-! ## URL validation (plugin.go lines 201-245) -/

/-- The part of a parsed URL that `validateRepositoryURL` inspects:
`parsedURL.Scheme` and `parsedURL.Hostname()` (host with port and any
IPv6 brackets stripped, so `http://[::1]:8080/` has `Host = "::1"`). -/
structure ParsedURL where
  Scheme : String
  Host : String
deriving DecidableEq, Repr

/-- The `isLocalhost` test of plugin.go line 215. -/
def isLocalhostHost (host : String) : Bool :=
  host == "localhost" || host == "127.0.0.1" || host == "::1"

/-- Embedding of plugin.go lines 212-244: the checks performed on the
already-parsed URL.  `lookupIP` stands for `net.LookupIP`. -/
def hostnameChecks (lookupIP : String → Except String (List IP))
    (parsedURL : ParsedURL) : Except String Unit :=
  let host := parsedURL.Host
  let isLocalhost := isLocalhostHost host
  if parsedURL.Scheme != "https" && !isLocalhost then
    .error ("only HTTPS URLs are allowed (got " ++ parsedURL.Scheme ++ ")")
  else if parsedURL.Scheme != "http" && parsedURL.Scheme != "https" then
    .error ("only HTTP(S) URLs are allowed (got " ++ parsedURL.Scheme ++ ")")
  else if isLocalhost then
    .ok ()
  else
    match lookupIP host with
    | .error e => .error ("failed to resolve hostname: " ++ e)
    | .ok ips =>
      -- the `for _, ip := range ips` loop of lines 238-242
      if ips.any isPrivateIP then
        .error "URLs pointing to private networks are not allowed"
      else
        .ok ()

/-- Embedding of `validateRepositoryURL` (plugin.go lines 202-245);
`parse` stands for `net/url.Parse` composed with `.Hostname()`. -/
def validateRepositoryURL (parse : String → Except String ParsedURL)
    (lookupIP : String → Except String (List IP)) (rawURL : String) : Except String Unit :=
  if rawURL == "" then
    .error "repository URL cannot be empty"
  else
    match parse rawURL with
    | .error e => .error ("invalid URL: " ++ e)
    | .ok parsedURL => hostnameChecks lookupIP parsedURL

/-! ## Path validation (plugin.go lines 19-23 and 285-315) -/

/-- A character of the `distPathPattern` regular expression class
`[a-zA-Z0-9._/*-]`. -/
def isAllowedChar (c : Char) : Bool :=
  ('a' ≤ c && c ≤ 'z') || ('A' ≤ c && c ≤ 'Z') || ('0' ≤ c && c ≤ '9') ||
  c == '.' || c == '_' || c == '/' || c == '*' || c == '-'

/-- Embedding of `distPathPattern.MatchString` for the anchored pattern
`[a-zA-Z0-9._/*-]+` (plugin.go line 22): non-empty and every character
in the class. -/
def distPathPattern (s : String) : Bool :=
  !s.toList.isEmpty && s.toList.all isAllowedChar

/-- Number of bytes of the UTF-8 encoding of a character; Go's `len` on
a string counts these bytes. -/
def charUtf8Size (c : Char) : Nat :=
  if c.toNat < 128 then 1 else if c.toNat < 2048 then 2
  else if c.toNat < 65536 then 3 else 4

/-- Go's `len(path)` (byte length of the string). -/
def byteLen (s : String) : Nat :=
  (s.toList.map charUtf8Size).sum

/-- Splitting a character list at `'/'` separators (the segments of a
POSIX path; empty segments arise from repeated or leading slashes). -/
def splitOnSlash : List Char → List (List Char)
  | [] => [[]]
  | c :: t =>
    match splitOnSlash t with
    | [] => [[c]]
    | s :: rest => if c == '/' then [] :: s :: rest else (c :: s) :: rest

/-- The segment pass of `filepath.Clean` for POSIX paths: drop empty and
`"."` segments; on `".."` pop the previous segment when one is
available and poppable, drop the `".."` at the root of a rooted path,
and keep it at the front of a relative path. -/
def cleanSegsAux (rooted : Bool) : List (List Char) → List (List Char) → List (List Char)
  | acc, [] => acc
  | acc, seg :: rest =>
    if seg == ([] : List Char) || seg == ['.'] then
      cleanSegsAux rooted acc rest
    else if seg == ['.', '.'] then
      match acc.getLast? with
      | some lastSeg =>
        if lastSeg == ['.', '.'] then cleanSegsAux rooted (acc ++ [seg]) rest
        else cleanSegsAux rooted acc.dropLast rest
      | none =>
        if rooted then cleanSegsAux rooted acc rest
        else cleanSegsAux rooted [seg] rest
    else
      cleanSegsAux rooted (acc ++ [seg]) rest

/-- Joining segments with `'/'`. -/
def joinSlash : List (List Char) → List Char
  | [] => []
  | [s] => s
  | s :: rest => s ++ '/' :: joinSlash rest

/-- Embedding of `filepath.Clean` (POSIX): empty input cleans to `"."`;
otherwise split into `/`-separated segments, process `"."` and `".."`
segments, re-join, keep the leading `/` of a rooted path, and return
`"."` when everything cancels. -/
def cleanList (p : List Char) : List Char :=
  match p with
  | [] => ['.']
  | c :: _ =>
    let rooted := c == '/'
    let segs := cleanSegsAux rooted [] (splitOnSlash p)
    let out := (if rooted then ['/'] else []) ++ joinSlash segs
    if out == ([] : List Char) then ['.'] else out

/-- `filepath.Clean` on strings. -/
def filepathClean (path : String) : String :=
  String.mk (cleanList path.toList)

/-- `strings.Contains s pat` on character lists: some suffix of `s`
starts with `pat`. -/
def hasSub : List Char → List Char → Bool
  | [], pat => pat.isEmpty
  | c :: t, pat => pat.isPrefixOf (c :: t) || hasSub t pat

/-- `strings.Contains` on strings. -/
def strContains (s pat : String) : Bool :=
  hasSub s.toList pat.toList

/-- Embedding of `filepath.IsAbs` (POSIX): the path starts with `/`. -/
def filepathIsAbs (path : String) : Bool :=
  match path.toList with
  | '/' :: _ => true
  | _ => false

/-- The cleaned, glob-stripped form of plugin.go lines 301-304:
`strings.ReplaceAll(filepath.Clean(path), "*", "")` (removing a
single-character pattern is a filter). -/
def pathWithoutGlob (path : String) : List Char :=
  (cleanList path.toList).filter (fun c => c != '*')

/-- The traversal test of plugin.go line 305:
`strings.HasPrefix(pathWithoutGlob, "..") ||
 strings.Contains(pathWithoutGlob, "/..")`. -/
def traversalDetected (path : String) : Bool :=
  ['.', '.'].isPrefixOf (pathWithoutGlob path) || hasSub (pathWithoutGlob path) ['/', '.', '.']

/-- Embedding of `validateDistPath` (plugin.go lines 286-315).  The
source's traversal message quotes the two dots; the quotes are omitted
here. -/
def validateDistPath (path : String) : Except String Unit :=
  if path == "" then
    .error "dist path cannot be empty"
  else if 256 < byteLen path then
    .error "dist path too long (max 256 characters)"
  else if !distPathPattern path then
    .error "dist path contains invalid characters"
  else if traversalDetected path then
    .error "path traversal detected: cannot use .. to escape working directory"
  else if filepathIsAbs path then
    .error "absolute paths are not allowed"
  else
    .ok ()

/-! ## Configuration, command building, orchestration (plugin.go lines 39-199, 317-379) -/

/-- Embedding of the `Config` struct (plugin.go lines 40-51). -/
structure Config where
  Username : String
  Password : String
  Repository : String
  DistPath : String
  SkipExisting : Bool
deriving DecidableEq, Repr

/-- Embedding of `buildTwineArgs` (plugin.go lines 157-176). -/
def buildTwineArgs (cfg : Config) : List String :=
  let args := ["upload"]
  let args := args ++ ["--repository-url", cfg.Repository]
  let args := args ++ ["-u", cfg.Username]
  let args := args ++ ["-p", cfg.Password]
  let args := if cfg.SkipExisting then args ++ ["--skip-existing"] else args
  args ++ [cfg.DistPath]

/-- Embedding of `validateConfig` (plugin.go lines 179-199); the `%w`
wrapping of `fmt.Errorf` becomes message concatenation. -/
def validateConfig (parse : String → Except String ParsedURL)
    (lookupIP : String → Except String (List IP)) (cfg : Config) : Except String Unit :=
  match validateRepositoryURL parse lookupIP cfg.Repository with
  | .error e => .error ("invalid repository URL: " ++ e)
  | .ok _ =>
    match validateDistPath cfg.DistPath with
    | .error e => .error ("invalid dist path: " ++ e)
    | .ok _ =>
      if cfg.Username == "" then .error "username is required"
      else if cfg.Password == "" then .error "password is required"
      else .ok ()

/-- Embedding of `strings.TrimPrefix(version, "v")` (plugin.go
line 116). -/
def trimPrefixV (version : String) : String :=
  match version.toList with
  | 'v' :: rest => String.mk rest
  | _ => version

/-- A value of the `map[string]any` outputs of an `ExecuteResponse`;
the source stores strings and one boolean. -/
inductive OutputVal where
  | str : String → OutputVal
  | bool : Bool → OutputVal
deriving DecidableEq, Repr

/-- Embedding of `plugin.ExecuteResponse` (the fields the source
sets). -/
structure ExecuteResponse where
  Success : Bool
  Message : String := ""
  Error : String := ""
  Outputs : List (String × OutputVal) := []
deriving DecidableEq, Repr

/-- Result of one `CommandExecutor.Run` call: combined output and the
optional error. -/
structure RunResult where
  output : String
  err : Option String
deriving DecidableEq, Repr

/-- Outcome of `uploadPackage`/`Execute`: the response, the Go-level
`error` return value (`nil` on every path of the source, hence
`none`), and the executor invocations performed, in order. -/
structure UploadOutcome where
  resp : ExecuteResponse
  goError : Option String
  calls : List (String × List String)
deriving DecidableEq, Repr

/-- Embedding of `uploadPackage` (plugin.go lines 107-154).  `run`
stands for the injected `CommandExecutor`; the returned `calls` list
records its invocations. -/
def uploadPackage (run : String → List String → RunResult)
    (parse : String → Except String ParsedURL)
    (lookupIP : String → Except String (List IP))
    (cfg : Config) (ctxVersion : String) (dryRun : Bool) : UploadOutcome :=
  match validateConfig parse lookupIP cfg with
  | .error e =>
    ⟨{ Success := false, Error := "configuration validation failed: " ++ e }, none, []⟩
  | .ok _ =>
    let version := trimPrefixV ctxVersion
    if dryRun then
      ⟨{ Success := true
         Message := "Would upload package to " ++ cfg.Repository
         Outputs := [("repository", .str cfg.Repository),
                     ("dist_path", .str cfg.DistPath),
                     ("skip_existing", .bool cfg.SkipExisting),
                     ("version", .str version)] }, none, []⟩
    else
      let args := buildTwineArgs cfg
      let result := run "twine" args
      match result.err with
      | some e =>
        ⟨{ Success := false
           Error := "twine upload failed: " ++ e ++ "\nOutput: " ++ result.output },
         none, [("twine", args)]⟩
      | none =>
        ⟨{ Success := true
           Message := "Successfully uploaded package to " ++ cfg.Repository
           Outputs := [("repository", .str cfg.Repository),
                       ("dist_path", .str cfg.DistPath),
                       ("version", .str version),
                       ("output", .str result.output)] }, none, [("twine", args)]⟩

/-- Lifecycle hooks are strings in the SDK; the exact value of the
post-publish constant is immaterial to the claims, only its equality
test in `Execute`. -/
abbrev Hook := String

/-- The `plugin.HookPostPublish` constant of the SDK. -/
def HookPostPublish : Hook := "post-publish"

/-- The raw `map[string]any` configuration restricted to the keys
`parseConfig` reads; a key that is absent or holds a value of the wrong
dynamic type is `none`. -/
structure RawConfig where
  username : Option String
  password : Option String
  repository : Option String
  dist_path : Option String
  skip_existing : Option Bool
deriving DecidableEq, Repr

/-- Embedding of `parseConfig` (plugin.go lines 348-379).  `env` stands
for `os.Getenv`, which returns `""` for an unset variable. -/
def parseConfig (env : String → String) (raw : RawConfig) : Config :=
  { Username :=
      match raw.username with
      | some v => if v != "" then v else env "PYPI_USERNAME"
      | none => env "PYPI_USERNAME"
    Password :=
      match raw.password with
      | some v => if v != "" then v else env "PYPI_PASSWORD"
      | none => env "PYPI_PASSWORD"
    Repository :=
      match raw.repository with
      | some v => if v != "" then v else "https://upload.pypi.org/legacy/"
      | none => "https://upload.pypi.org/legacy/"
    DistPath :=
      match raw.dist_path with
      | some v => if v != "" then v else "dist/*"
      | none => "dist/*"
    SkipExisting := raw.skip_existing.getD false }

/-- Embedding of `Execute` (plugin.go lines 92-104); `hook` is
`req.Hook`, `ctxVersion` is `req.Context.Version`. -/
def Execute (run : String → List String → RunResult)
    (parse : String → Except String ParsedURL)
    (lookupIP : String → Except String (List IP))
    (env : String → String) (hook : Hook) (rawConfig : RawConfig)
    (ctxVersion : String) (dryRun : Bool) : UploadOutcome :=
  let cfg := parseConfig env rawConfig
  if hook == HookPostPublish then
    uploadPackage run parse lookupIP cfg ctxVersion dryRun
  else
    ⟨{ Success := true, Message := "Hook " ++ hook ++ " not handled" }, none, []⟩

/-- `true` exactly on a non-nil `error` result. -/
def isFailure : Except String Unit → Bool
  | .error _ => true
  | .ok _ => false

/-! ## Helper lemmas -/

theorem isPrefixOf_append_right (pat s t : List Char) (h : pat.isPrefixOf s = true) :
    pat.isPrefixOf (s ++ t) = true := by
  induction pat generalizing s with
  | nil => simp [List.isPrefixOf]
  | cons c cs ih =>
    cases s with
    | nil => simp [List.isPrefixOf] at h
    | cons d ds =>
      simp only [List.isPrefixOf, Bool.and_eq_true] at h
      simp only [List.cons_append, List.isPrefixOf, Bool.and_eq_true]
      exact ⟨h.1, ih ds h.2⟩

theorem hasSub_of_isPrefixOf (s pat : List Char) (h : pat.isPrefixOf s = true) :
    hasSub s pat = true := by
  cases s with
  | nil =>
    cases pat with
    | nil => rfl
    | cons c cs => simp [List.isPrefixOf] at h
  | cons c t => simp [hasSub, h]

theorem hasSub_append_left (a b pat : List Char) (h : hasSub a pat = true) :
    hasSub (a ++ b) pat = true := by
  induction a with
  | nil =>
    cases pat with
    | nil => exact hasSub_of_isPrefixOf _ _ (by simp [List.isPrefixOf])
    | cons c cs => simp [hasSub, List.isEmpty] at h
  | cons c t ih =>
    simp only [hasSub, Bool.or_eq_true] at h
    simp only [List.cons_append, hasSub, Bool.or_eq_true]
    rcases h with h | h
    · exact Or.inl (by simpa using isPrefixOf_append_right _ _ b h)
    · exact Or.inr (ih h)

theorem strContains_append_left (a b pat : String) (h : strContains a pat = true) :
    strContains (a ++ b) pat = true := by
  unfold strContains at *
  have hdata : (a ++ b).toList = a.toList ++ b.toList := rfl
  rw [hdata]
  exact hasSub_append_left _ _ _ h

/-! ## Claim theorems -/

/-- C1: whenever configuration validation fails — missing username,
missing password, a repository URL rejected by the URL validator, or a
dist path rejected by the path validator, i.e. whenever `validateConfig`
returns an error — `uploadPackage` returns, for either value of the
dry-run flag, a structured outcome with `Success = false` and the
descriptive message "configuration validation failed: …", never invokes
the subprocess executor, and returns a nil Go-level error. -/
theorem uploadPackage_validationFailure
    (run : String → List String → RunResult)
    (parse : String → Except String ParsedURL)
    (lookupIP : String → Except String (List IP))
    (cfg : Config) (ctxVersion : String) (dryRun : Bool) (e : String)
    (h : validateConfig parse lookupIP cfg = .error e) :
    uploadPackage run parse lookupIP cfg ctxVersion dryRun =
      ⟨{ Success := false, Error := "configuration validation failed: " ++ e }, none, []⟩ := by
  simp [uploadPackage, h]

/-- Witness for C1: a configuration with an empty username (and a
path-traversal scenario in the second conjunct: a configuration with
dist path `../../etc/passwd`) is rejected without any executor call. -/
theorem uploadPackage_validationFailure_witness :
    uploadPackage (fun _ _ => ⟨"", none⟩)
        (fun _ => .ok ⟨"https", "upload.pypi.org"⟩)
        (fun _ => .ok [.v4 ⟨151, 101, 0, 223⟩])
        ⟨"", "p", "https://upload.pypi.org/legacy/", "dist/*", false⟩ "v1.0.0" true =
      ⟨{ Success := false, Error := "configuration validation failed: username is required" },
       none, []⟩ ∧
    uploadPackage (fun _ _ => ⟨"", none⟩)
        (fun _ => .ok ⟨"https", "upload.pypi.org"⟩)
        (fun _ => .ok [.v4 ⟨151, 101, 0, 223⟩])
        ⟨"u", "p", "https://upload.pypi.org/legacy/", "../../etc/passwd", false⟩ "v1.0.0" false =
      ⟨{ Success := false
         Error := "configuration validation failed: invalid dist path: path traversal detected: cannot use .. to escape working directory" },
       none, []⟩ :=
  ⟨uploadPackage_validationFailure _ _ _ _ _ _ _ (by rfl),
   uploadPackage_validationFailure _ _ _ _ _ _ _ (by rfl)⟩

/-- C2: for every configuration, `buildTwineArgs` produces exactly
`["upload", "--repository-url", Repository, "-u", Username, "-p",
Password, DistPath]`, with `"--skip-existing"` inserted immediately
before the trailing path argument exactly when `SkipExisting` is true,
and nowhere else. -/
theorem buildTwineArgs_shape (cfg : Config) :
    buildTwineArgs cfg =
      ["upload", "--repository-url", cfg.Repository, "-u", cfg.Username, "-p", cfg.Password] ++
        (if cfg.SkipExisting then ["--skip-existing", cfg.DistPath] else [cfg.DistPath]) := by
  cases h : cfg.SkipExisting <;> simp [buildTwineArgs, h]

/-- C10: for every hook other than the post-publish hook, and for every
configuration, version and dry-run value, `Execute` returns success with
the "Hook … not handled" message, performs no validation (the outcome
is the same for every `parse` and `lookupIP`), and never invokes the
subprocess executor. -/
theorem Execute_unhandledHook
    (run : String → List String → RunResult)
    (parse : String → Except String ParsedURL)
    (lookupIP : String → Except String (List IP))
    (env : String → String) (hook : Hook) (rawConfig : RawConfig)
    (ctxVersion : String) (dryRun : Bool)
    (h : hook ≠ HookPostPublish) :
    Execute run parse lookupIP env hook rawConfig ctxVersion dryRun =
      ⟨{ Success := true, Message := "Hook " ++ hook ++ " not handled" }, none, []⟩ := by
  simp [Execute, h]

/-- Witness for C10: the pre-init hook is answered with "Hook pre-init
not handled" and no executor call, for both dry-run values. -/
theorem Execute_unhandledHook_witness :
    Execute (fun _ _ => ⟨"", none⟩) (fun _ => .error "unused") (fun _ => .error "unused")
        (fun _ => "") "pre-init" ⟨none, none, none, none, none⟩ "v1.0.0" false =
      ⟨{ Success := true, Message := "Hook pre-init not handled" }, none, []⟩ ∧
    Execute (fun _ _ => ⟨"", none⟩) (fun _ => .error "unused") (fun _ => .error "unused")
        (fun _ => "") "pre-version" ⟨none, none, none, none, none⟩ "v1.0.0" true =
      ⟨{ Success := true, Message := "Hook pre-version not handled" }, none, []⟩ :=
  ⟨Execute_unhandledHook _ _ _ _ _ _ _ _ (by decide),
   Execute_unhandledHook _ _ _ _ _ _ _ _ (by decide)⟩

/-- C4: a parsed URL with scheme `http` whose hostname is not textually
`localhost`, `127.0.0.1` or `::1` is rejected with the HTTPS-required
violation; and any scheme other than `http` and `https` is rejected for
every host, localhost-equivalent ones included. -/
theorem hostnameChecks_schemeRejection
    (lookupIP : String → Except String (List IP)) (u : ParsedURL) :
    (u.Scheme = "http" →
      ¬(u.Host = "localhost" ∨ u.Host = "127.0.0.1" ∨ u.Host = "::1") →
      hostnameChecks lookupIP u = .error "only HTTPS URLs are allowed (got http)") ∧
    (u.Scheme ≠ "http" → u.Scheme ≠ "https" →
      isFailure (hostnameChecks lookupIP u) = true) := by
  constructor
  · intro hs hh
    push_neg at hh
    obtain ⟨h1, h2, h3⟩ := hh
    simp [hostnameChecks, isLocalhostHost, hs, h1, h2, h3]
  · intro h1 h2
    by_cases hloc : isLocalhostHost u.Host = true
    · simp [hostnameChecks, hloc, h1, h2, isFailure, bne]
    · have hloc' : isLocalhostHost u.Host = false := by
        cases hb : isLocalhostHost u.Host
        · rfl
        · exact absurd hb hloc
      simp [hostnameChecks, hloc', h1, h2, isFailure, bne]

/-- Witness for C4: `http://pypi.example.com` is rejected with the
HTTPS-required message, and `ftp://localhost` is rejected although its
host is localhost-equivalent. -/
theorem hostnameChecks_schemeRejection_witness :
    hostnameChecks (fun _ => .ok []) ⟨"http", "pypi.example.com"⟩ =
      .error "only HTTPS URLs are allowed (got http)" ∧
    isFailure (hostnameChecks (fun _ => .ok []) ⟨"ftp", "localhost"⟩) = true :=
  ⟨(hostnameChecks_schemeRejection (fun _ => .ok []) ⟨"http", "pypi.example.com"⟩).1
      rfl (by decide),
   (hostnameChecks_schemeRejection (fun _ => .ok []) ⟨"ftp", "localhost"⟩).2
      (by decide) (by decide)⟩

/-- C5: a parsed URL with scheme `http` or `https` whose hostname is
textually `localhost`, `127.0.0.1` or `::1` is accepted immediately, for
every resolver behaviour — no hostname resolution is performed, so the
outcome does not depend on what those names resolve to.  (Ports and
paths do not appear: `Hostname()` already strips them.) -/
theorem hostnameChecks_localhostAccept
    (lookupIP : String → Except String (List IP)) (u : ParsedURL)
    (hscheme : u.Scheme = "http" ∨ u.Scheme = "https")
    (hhost : u.Host = "localhost" ∨ u.Host = "127.0.0.1" ∨ u.Host = "::1") :
    hostnameChecks lookupIP u = .ok () := by
  have hloc : isLocalhostHost u.Host = true := by
    rcases hhost with h | h | h <;> simp [isLocalhostHost, h]
  rcases hscheme with h | h <;> simp [hostnameChecks, hloc, h]

/-- Witness for C5: `http://[::1]:8080/` style URLs are accepted even
when the resolver would fail on every hostname. -/
theorem hostnameChecks_localhostAccept_witness :
    hostnameChecks (fun _ => .error "resolver unavailable") ⟨"http", "::1"⟩ = .ok () ∧
    hostnameChecks (fun _ => .ok [.v4 ⟨10, 0, 0, 1⟩]) ⟨"http", "127.0.0.1"⟩ = .ok () :=
  ⟨hostnameChecks_localhostAccept _ _ (Or.inl rfl) (Or.inr (Or.inr rfl)),
   hostnameChecks_localhostAccept _ _ (Or.inl rfl) (Or.inr (Or.inl rfl))⟩

/-- C7: for a non-localhost-equivalent https URL, if resolution yields a
list of addresses of which at least one is classified private — the
others may be public — the whole URL is rejected; and a resolution
failure is likewise a rejection, not an acceptance. -/
theorem hostnameChecks_resolution
    (lookupIP : String → Except String (List IP)) (u : ParsedURL)
    (ips : List IP) (ip : IP) (e : String)
    (hscheme : u.Scheme = "https")
    (hhost : ¬(u.Host = "localhost" ∨ u.Host = "127.0.0.1" ∨ u.Host = "::1")) :
    (lookupIP u.Host = .ok ips → ip ∈ ips → isPrivateIP ip = true →
      hostnameChecks lookupIP u = .error "URLs pointing to private networks are not allowed") ∧
    (lookupIP u.Host = .error e →
      hostnameChecks lookupIP u = .error ("failed to resolve hostname: " ++ e)) := by
  push_neg at hhost
  obtain ⟨h1, h2, h3⟩ := hhost
  constructor
  · intro hres hmem hpriv
    have hany : ips.any isPrivateIP = true := List.any_eq_true.mpr ⟨ip, hmem, hpriv⟩
    simp [hostnameChecks, isLocalhostHost, hscheme, h1, h2, h3, hres, hany]
  · intro hres
    simp [hostnameChecks, isLocalhostHost, hscheme, h1, h2, h3, hres]

/-- Witness for C7: a hostname resolving to the mixed list
`[8.8.8.8, 10.0.0.1]` is rejected entirely, and a hostname that fails to
resolve is rejected. -/
theorem hostnameChecks_resolution_witness :
    hostnameChecks (fun _ => .ok [.v4 ⟨8, 8, 8, 8⟩, .v4 ⟨10, 0, 0, 1⟩])
        ⟨"https", "rebind.example.com"⟩ =
      .error "URLs pointing to private networks are not allowed" ∧
    hostnameChecks (fun _ => .error "no such host") ⟨"https", "missing.example.com"⟩ =
      .error "failed to resolve hostname: no such host" :=
  ⟨(hostnameChecks_resolution (fun _ => .ok [.v4 ⟨8, 8, 8, 8⟩, .v4 ⟨10, 0, 0, 1⟩])
      ⟨"https", "rebind.example.com"⟩ [.v4 ⟨8, 8, 8, 8⟩, .v4 ⟨10, 0, 0, 1⟩]
      (.v4 ⟨10, 0, 0, 1⟩) "unused" rfl (by decide)).1 rfl (by decide) (by decide),
   (hostnameChecks_resolution (fun _ => .error "no such host")
      ⟨"https", "missing.example.com"⟩ [] (.v4 ⟨0, 0, 0, 0⟩) "no such host"
      rfl (by decide)).2 rfl⟩

/-- C6: `isPrivateIP` is a pure function of the address bytes that
classifies as private every address in `10.0.0.0/8`, `172.16.0.0/12`,
`192.168.0.0/16`, `127.0.0.0/8`, `169.254.0.0/16` and `0.0.0.0/8`, the
cloud-metadata addresses `169.254.169.254` and `fd00:ec2::254`, the IPv6
loopback `::1`, and every address satisfying the generic is-loopback,
is-link-local (unicast or multicast) or is-private predicates. -/
theorem isPrivateIP_disallowedRanges (ip : IP)
    (h : (∃ v, ip = .v4 v ∧
            (v.a = 10 ∨
             (v.a = 172 ∧ 16 ≤ v.b ∧ v.b < 32) ∨
             (v.a = 192 ∧ v.b = 168) ∨
             v.a = 127 ∨
             (v.a = 169 ∧ v.b = 254) ∨
             v.a = 0 ∨
             v = ⟨169, 254, 169, 254⟩)) ∨
         ip = .v6 awsIMDSv6 ∨
         ip = .v6 IPv6loopback ∨
         ip.IsLoopback = true ∨
         ip.IsLinkLocalUnicast = true ∨
         ip.IsLinkLocalMulticast = true ∨
         ip.IsPrivate = true) :
    isPrivateIP ip = true := by
  rcases h with ⟨v, rfl, hv⟩ | rfl | rfl | hp | hp | hp | hp
  · rcases hv with h | ⟨h1, h2, h3⟩ | ⟨h1, h2⟩ | h | ⟨h1, h2⟩ | h | rfl
    · simp [isPrivateIP, inPrivateRanges, h]
    · have : v.b / 16 = 1 := by omega
      simp [isPrivateIP, inPrivateRanges, h1, this]
    · simp [isPrivateIP, inPrivateRanges, h1, h2]
    · simp [isPrivateIP, inPrivateRanges, h]
    · simp [isPrivateIP, inPrivateRanges, h1, h2]
    · simp [isPrivateIP, inPrivateRanges, h]
    · decide
  · decide
  · decide
  · simp [isPrivateIP, hp]
  · simp [isPrivateIP, hp]
  · simp [isPrivateIP, hp]
  · simp [isPrivateIP, hp]

/-- Witness for C6: three sample disallowed addresses — one per
hypothesis family — are classified private. -/
theorem isPrivateIP_disallowedRanges_witness :
    isPrivateIP (.v4 ⟨10, 0, 0, 1⟩) = true ∧
    isPrivateIP (.v4 ⟨172, 20, 3, 4⟩) = true ∧
    isPrivateIP (.v6 ⟨0xfe, 0x80, 0, 0, 0, 0, 0, 0, 0, 0, 0, 0, 0, 0, 0, 7⟩) = true :=
  ⟨isPrivateIP_disallowedRanges _ (Or.inl ⟨⟨10, 0, 0, 1⟩, rfl, Or.inl rfl⟩),
   isPrivateIP_disallowedRanges _
     (Or.inl ⟨⟨172, 20, 3, 4⟩, rfl, Or.inr (Or.inl ⟨rfl, by decide, by decide⟩)⟩),
   isPrivateIP_disallowedRanges _
     (Or.inr (Or.inr (Or.inr (Or.inr (Or.inl (by decide))))))⟩

/-- C8 counterexample: the path `"../ "` (with a trailing space) has a
cleaned, glob-stripped form starting with `..`, yet `validateDistPath`
rejects it with the invalid-characters violation, whose message does not
mention path traversal — the character-set check runs first. -/
theorem validateDistPath_traversalRejection_case :
    (['.', '.'].isPrefixOf (pathWithoutGlob "../ ") = true ∨
     hasSub (pathWithoutGlob "../ ") ['/', '.', '.'] = true) ∧
    validateDistPath "../ " = .error "dist path contains invalid characters" ∧
    strContains "dist path contains invalid characters" "path traversal" = false :=
  ⟨Or.inl (by decide), by rfl, by decide⟩

/-- C8 (amended): every path whose cleaned, glob-stripped form starts
with `..` or contains `/..` is rejected by `validateDistPath`; when the
path moreover passes the character-set and length checks, the rejection
carries the path-traversal message.  (The raw string may contain `*`
anywhere: the glob characters are stripped only for the check.) -/
theorem validateDistPath_traversalRejection (path : String)
    (h : ['.', '.'].isPrefixOf (pathWithoutGlob path) = true ∨
         hasSub (pathWithoutGlob path) ['/', '.', '.'] = true) :
    isFailure (validateDistPath path) = true ∧
    (distPathPattern path = true → byteLen path ≤ 256 →
      validateDistPath path =
        .error "path traversal detected: cannot use .. to escape working directory") := by
  have htrav : traversalDetected path = true := by
    unfold traversalDetected
    rcases h with h | h <;> simp [h]
  constructor
  · cases h1 : path == ""
    · by_cases h2 : 256 < byteLen path
      · simp [validateDistPath, h1, h2, isFailure]
      · cases h3 : distPathPattern path
        · simp [validateDistPath, h1, h2, h3, isFailure]
        · simp [validateDistPath, h1, h2, h3, htrav, isFailure]
    · simp [validateDistPath, h1, isFailure]
  · intro hpat hlen
    have h1 : (path == "") = false := by
      cases he : path == ""
      · rfl
      · have hp : path = "" := by simpa using he
        subst hp
        simp [distPathPattern] at hpat
    have h2 : ¬(256 < byteLen path) := by omega
    simp [validateDistPath, h1, h2, hpat, htrav]

/-- Witness for the amended C8: `../../etc/passwd` is rejected with the
path-traversal message, and the rejection is a failure outcome. -/
theorem validateDistPath_traversalRejection_witness :
    validateDistPath "../../etc/passwd" =
      .error "path traversal detected: cannot use .. to escape working directory" ∧
    isFailure (validateDistPath "../../etc/passwd") = true :=
  ⟨(validateDistPath_traversalRejection "../../etc/passwd"
      (Or.inl (by decide))).2 (by decide) (by decide),
   (validateDistPath_traversalRejection "../../etc/passwd"
      (Or.inl (by decide))).1⟩

/-- C9 counterexample: the absolute path `"/*.."` is rejected with the
path-traversal violation, not the absolute-paths one — stripping the
glob character turns `/*..` into `/..`, so the traversal check (which
runs first) fires. -/
theorem validateDistPath_absoluteRejection_case :
    filepathIsAbs "/*.." = true ∧
    validateDistPath "/*.." =
      .error "path traversal detected: cannot use .. to escape working directory" ∧
    strContains "path traversal detected: cannot use .. to escape working directory"
      "absolute paths" = false :=
  ⟨by decide, by rfl, by decide⟩

/-- C9 (amended): every absolute path is rejected by `validateDistPath`;
when the path moreover passes the character-set, length and traversal
checks, the rejection carries the absolute-paths message. -/
theorem validateDistPath_absoluteRejection (path : String)
    (h : filepathIsAbs path = true) :
    isFailure (validateDistPath path) = true ∧
    (distPathPattern path = true → byteLen path ≤ 256 → traversalDetected path = false →
      validateDistPath path = .error "absolute paths are not allowed") := by
  have h1 : (path == "") = false := by
    cases he : path == ""
    · rfl
    · have hp : path = "" := by simpa using he
      subst hp
      exact absurd h (by decide)
  constructor
  · by_cases h2 : 256 < byteLen path
    · simp [validateDistPath, h1, h2, isFailure]
    · cases h3 : distPathPattern path
      · simp [validateDistPath, h1, h2, h3, isFailure]
      · cases h4 : traversalDetected path
        · simp [validateDistPath, h1, h2, h3, h4, h, isFailure]
        · simp [validateDistPath, h1, h2, h3, h4, isFailure]
  · intro hpat hlen htrav
    have h2 : ¬(256 < byteLen path) := by omega
    simp [validateDistPath, h1, h2, hpat, htrav, h]

/-- Witness for the amended C9: `/etc/passwd` is rejected with the
absolute-paths message, and the absolute `"/*.."` still yields a failure
outcome. -/
theorem validateDistPath_absoluteRejection_witness :
    validateDistPath "/etc/passwd" = .error "absolute paths are not allowed" ∧
    isFailure (validateDistPath "/*..") = true :=
  ⟨(validateDistPath_absoluteRejection "/etc/passwd" (by decide)).2
      (by decide) (by decide) (by decide),
   (validateDistPath_absoluteRejection "/*.." (by decide)).1⟩

/-- C3 counterexample: for a validated configuration in dry-run mode the
outcome is successful, but the message is "Would upload package to …",
which does not contain the lowercase string "would". -/
theorem uploadPackage_dryRunSimulation_case :
    validateConfig (fun _ => .ok ⟨"https", "upload.pypi.org"⟩)
        (fun _ => .ok [.v4 ⟨151, 101, 0, 223⟩])
        ⟨"u", "p", "https://upload.pypi.org/legacy/", "dist/*", false⟩ = .ok () ∧
    (uploadPackage (fun _ _ => ⟨"", none⟩) (fun _ => .ok ⟨"https", "upload.pypi.org"⟩)
        (fun _ => .ok [.v4 ⟨151, 101, 0, 223⟩])
        ⟨"u", "p", "https://upload.pypi.org/legacy/", "dist/*", false⟩
        "v1.2.3" true).resp.Success = true ∧
    strContains
      (uploadPackage (fun _ _ => ⟨"", none⟩) (fun _ => .ok ⟨"https", "upload.pypi.org"⟩)
        (fun _ => .ok [.v4 ⟨151, 101, 0, 223⟩])
        ⟨"u", "p", "https://upload.pypi.org/legacy/", "dist/*", false⟩
        "v1.2.3" true).resp.Message "would" = false :=
  ⟨rfl, rfl, by decide⟩

/-- C3 (amended): for every configuration that passes validation, a
dry-run `uploadPackage` returns success with the message "Would upload
package to …" (which contains "Would", the capitalised form of "would"),
outputs carrying the endpoint, the path pattern, the skip flag and the
version with a leading `v` stripped, and no executor invocation and a
nil Go-level error. -/
theorem uploadPackage_dryRunSimulation
    (run : String → List String → RunResult)
    (parse : String → Except String ParsedURL)
    (lookupIP : String → Except String (List IP))
    (cfg : Config) (ctxVersion : String)
    (h : validateConfig parse lookupIP cfg = .ok ()) :
    uploadPackage run parse lookupIP cfg ctxVersion true =
      ⟨{ Success := true
         Message := "Would upload package to " ++ cfg.Repository
         Outputs := [("repository", .str cfg.Repository),
                     ("dist_path", .str cfg.DistPath),
                     ("skip_existing", .bool cfg.SkipExisting),
                     ("version", .str (trimPrefixV ctxVersion))] }, none, []⟩ ∧
    strContains ("Would upload package to " ++ cfg.Repository) "Would" = true := by
  constructor
  · simp [uploadPackage, h]
  · exact strContains_append_left _ _ _ (by decide)

/-- Witness for the amended C3: the scenario configuration
`{username: "u", password: "p"}` with defaults, version `v1.2.3`, yields
a simulated success whose outputs carry version `1.2.3` and whose call
list is empty. -/
theorem uploadPackage_dryRunSimulation_witness :
    uploadPackage (fun _ _ => ⟨"", none⟩) (fun _ => .ok ⟨"https", "upload.pypi.org"⟩)
        (fun _ => .ok [.v4 ⟨151, 101, 0, 223⟩])
        ⟨"u", "p", "https://upload.pypi.org/legacy/", "dist/*", false⟩ "v1.2.3" true =
      ⟨{ Success := true
         Message := "Would upload package to https://upload.pypi.org/legacy/"
         Outputs := [("repository", .str "https://upload.pypi.org/legacy/"),
                     ("dist_path", .str "dist/*"),
                     ("skip_existing", .bool false),
                     ("version", .str "1.2.3")] }, none, []⟩ ∧
    strContains "Would upload package to https://upload.pypi.org/legacy/" "Would" = true := by
  constructor
  · exact (uploadPackage_dryRunSimulation (fun _ _ => ⟨"", none⟩)
      (fun _ => .ok ⟨"https", "upload.pypi.org"⟩) (fun _ => .ok [.v4 ⟨151, 101, 0, 223⟩])
      ⟨"u", "p", "https://upload.pypi.org/legacy/", "dist/*", false⟩ "v1.2.3" (by rfl)).1
  · exact (uploadPackage_dryRunSimulation (fun _ _ => ⟨"", none⟩)
      (fun _ => .ok ⟨"https", "upload.pypi.org"⟩) (fun _ => .ok [.v4 ⟨151, 101, 0, 223⟩])
      ⟨"u", "p", "https://upload.pypi.org/legacy/", "dist/*", false⟩ "v1.2.3" (by rfl)).2

end PyPIPlugin
